import Mathlib

/-!
Verification of the siMpLify / ml_funnel repository claims.

This file gives a shallow embedding, in Lean 4, of the parts of the
repository that the claims C1..C10 are about:

* `Author._build_techniques` (src/simplify/core/author.py) — the
  cross-product expansion of per-step technique lists;
* `Data.drop_cols`, `Data.drop_highly_correlated_cols`,
  `Data.drop_infrequent_cols` (src/ml_funnel/data.py) — the column
  dropping operations and the `dropped_columns` audit trail;
* `Data.column_types` / `Data.create_column_list` (src/ml_funnel/data.py);
* `SimpleLoader.load` (src/simplify/core/base.py);
* `ParameterBuilder` (src/simplify/creator/content.py);
* `Data.summarize` (src/ml_funnel/data.py);
* `Data._set_defaults` / `Data.__post_init__` (src/ml_funnel/data.py);
* the `settings` mapping (src/simplify/core/resources.py);
* `Data.load` (src/ml_funnel/data.py).

Machine floats of the source are idealised as exact rationals (`Rat`);
the standard deviation, which the source computes as a square root, is
represented as a real number.  Python dictionaries are modelled as
association lists with first-key lookup and insert-or-overwrite update;
Python exceptions are modelled with `Except` / error components.
-/

namespace MlFunnel

/-- Python exception values raised by the embedded code. -/
inductive PyErr where
  | typeError
  | keyError (k : String)
  | nameError (n : String)
  | importError (msg : String)
  | attributeError (msg : String)
  | unboundLocalError (n : String)
  deriving DecidableEq, Repr

/-- A small universe of Python scalar values, used for settings entries. -/
inductive PyVal where
  | pynone
  | bool (b : Bool)
  | int (n : Int)
  | str (s : String)
  deriving DecidableEq, Repr

/-- Python truthiness of a `PyVal` (`bool(v)`). -/
def PyVal.truthy : PyVal → Bool
  | .pynone => false
  | .bool b => b
  | .int n => decide (n ≠ 0)
  | .str s => decide (s ≠ "")

/-- Lookup in a Python `dict` modelled as an association list
(first matching key wins; the dicts built below never hold a key twice). -/
def dget {β : Type} : List (String × β) → String → Option β
  | [], _ => Option.none
  | (k', v) :: rest, k => if k = k' then some v else dget rest k

/-- `d[k] = v` on a Python `dict` modelled as an association list: the
value of the first occurrence of `k` is replaced in place, and a missing
key is appended at the end (insertion order semantics). -/
def dset {β : Type} : List (String × β) → String → β → List (String × β)
  | [], k, v => [(k, v)]
  | (k', v') :: rest, k, v =>
    if k = k' then (k', v) :: rest else (k', v') :: dset rest k v

/-- `d.update(entries)`: `dset` applied over `entries` in order. -/
def dupdate {β : Type} (d : List (String × β)) (entries : List (String × β)) :
    List (String × β) :=
  entries.foldl (fun acc p => dset acc p.1 p.2) d

theorem dget_dset {β : Type} (d : List (String × β)) (k k' : String) (v : β) :
    dget (dset d k v) k' = if k' = k then some v else dget d k' := by
  induction d with
  | nil =>
    by_cases h : k' = k <;> simp [dset, dget, h]
  | cons p rest ih =>
    obtain ⟨pk, pv⟩ := p
    by_cases hk : k = pk
    · subst hk
      by_cases h : k' = k <;> simp [dset, dget, h]
    · by_cases h : k' = pk
      · subst h
        simp [dset, dget, hk, Ne.symm hk]
      · simp [dset, dget, hk, h, ih]

theorem dget_dupdate {β : Type} (entries : List (String × β)) (d : List (String × β))
    (k : String) :
    dget (dupdate d entries) k =
      match dget (dupdate [] entries) k with
      | some v => some v
      | Option.none => dget d k := by
  induction entries generalizing d with
  | nil => simp [dupdate, dget]
  | cons p rest ih =>
    obtain ⟨pk, pv⟩ := p
    show dget (dupdate (dset d pk pv) rest) k = _
    rw [ih (dset d pk pv)]
    have h2 : dget (dupdate [] (⟨pk, pv⟩ :: rest)) k =
        match dget (dupdate [] rest) k with
        | some v => some v
        | Option.none => dget (dset [] pk pv) k := by
      show dget (dupdate (dset [] pk pv) rest) k = _
      rw [ih (dset [] pk pv)]
    rw [h2]
    cases hrest : dget (dupdate [] rest) k with
    | some v => simp
    | none =>
      simp only
      rw [dget_dset, dget_dset]
      by_cases h : k = pk <;> simp [h, dget]

/-! ## C1: `Author._build_techniques` (src/simplify/core/author.py)

```python
possibilities = []
for step in steps:
    try:
        possibilities.append(listify(
            self.idea[name]['_'.join([step, 'techniques'])]))
    except KeyError:
        possibilities.append(['none'])
return list(map(list, product(*possibilities)))
```

The shared `Idea` is modelled as a nested lookup
`String → Option (String → Option (List String))`; a `KeyError` at either
level of `self.idea[name][step + '_techniques']` is an `Option.none`
result of the composite lookup.  `itertools.product` is `pyProduct`,
which enumerates tuples with the rightmost position advancing fastest. -/

/-- The shared `Idea` settings: section name to key to technique list. -/
abbrev Idea := String → Option (String → Option (List String))

/-- `itertools.product` over lists of strings, in Python's enumeration
order (first position slowest). -/
def pyProduct : List (List String) → List (List String)
  | [] => [[]]
  | l :: rest => l.flatMap (fun x => (pyProduct rest).map (fun p => x :: p))

/-- The per-step technique lists (`possibilities` in the source): the
`Idea` entry for `step + "_techniques"` inside section `name`, with
`['none']` on a `KeyError` at either lookup level. -/
def possibilities (idea : Idea) (name : String) (steps : List String) :
    List (List String) :=
  steps.map (fun step =>
    ((idea name).bind (fun sec => sec (step ++ "_techniques"))).getD ["none"])

/-- `Author._build_techniques`: the Cartesian product of the per-step
technique lists. -/
def build_techniques (idea : Idea) (name : String) (steps : List String) :
    List (List String) :=
  pyProduct (possibilities idea name steps)

theorem pyProduct_length (L : List (List String)) :
    (pyProduct L).length = (L.map List.length).prod := by
  induction L with
  | nil => simp [pyProduct]
  | cons l rest ih =>
    simp only [pyProduct, List.length_flatMap, List.map_cons, List.prod_cons]
    rw [← ih]
    induction l with
    | nil => simp
    | cons x xs ihx =>
      simp [Nat.succ_mul, ihx, Nat.add_comm]

theorem mem_pyProduct (L : List (List String)) (p : List String) :
    p ∈ pyProduct L ↔ List.Forall₂ (fun x l => x ∈ l) p L := by
  induction L generalizing p with
  | nil =>
    simp only [pyProduct, List.mem_singleton]
    constructor
    · rintro rfl; exact List.Forall₂.nil
    · intro h; cases h; rfl
  | cons l rest ih =>
    simp only [pyProduct, List.mem_flatMap, List.mem_map]
    constructor
    · rintro ⟨x, hx, q, hq, rfl⟩
      exact List.Forall₂.cons hx ((ih q).1 hq)
    · intro h
      cases h with
      | cons hx hq =>
        rename_i a as
        exact ⟨a, hx, as, (ih as).2 hq, rfl⟩

/-- C1: for every list of pipeline steps, `Author._build_techniques`
returns the full Cartesian product of the per-step technique lists — the
number of candidate plans is the product of the per-step list lengths, a
plan is exactly a choice of one technique per step in step order, and a
step whose techniques are missing from the settings (a `KeyError` at
either lookup level) contributes the single-element list `['none']`. -/
theorem build_techniques_cross_product (idea : Idea) (name : String)
    (steps : List String) :
    (build_techniques idea name steps).length
      = ((possibilities idea name steps).map List.length).prod
    ∧ (∀ plan, plan ∈ build_techniques idea name steps ↔
        List.Forall₂ (fun x l => x ∈ l) plan (possibilities idea name steps))
    ∧ (∀ plan, plan ∈ build_techniques idea name steps →
        plan.length = steps.length)
    ∧ (∀ i, i < steps.length →
        (idea name).bind (fun sec => sec (steps.getD i "" ++ "_techniques"))
          = Option.none →
        (possibilities idea name steps).getD i [] = ["none"]) := by
  refine ⟨pyProduct_length _, mem_pyProduct _, ?_, ?_⟩
  · intro plan hplan
    have h := (mem_pyProduct _ plan).1 hplan
    have := h.length_eq
    simpa [possibilities] using this
  · intro i hi hlook
    have hi' : i < (possibilities idea name steps).length := by
      simpa [possibilities] using hi
    rw [List.getD_eq_getElem _ _ hi']
    have hsteps : (possibilities idea name steps)[i] =
        ((idea name).bind
          (fun sec => sec (steps[i] ++ "_techniques"))).getD ["none"] := by
      simp [possibilities]
    rw [hsteps]
    rw [List.getD_eq_getElem _ _ hi] at hlook
    rw [hlook]
    rfl

/-- A concrete `Idea` used to witness `build_techniques_cross_product`:
section `chef` declares two scaling techniques and nothing else. -/
def ideaEx : Idea := fun n =>
  if n = "chef" then
    some (fun k => if k = "scale_techniques" then some ["minmax", "standard"]
                   else Option.none)
  else Option.none

theorem build_techniques_cross_product_witness :
    (build_techniques ideaEx "chef" ["scale", "model"]).length = 2
    ∧ ["minmax", "none"] ∈ build_techniques ideaEx "chef" ["scale", "model"]
    ∧ (possibilities ideaEx "chef" ["scale", "model"]).getD 1 [] = ["none"] := by
  refine ⟨?_, ?_, ?_⟩
  · rw [(build_techniques_cross_product ideaEx "chef" ["scale", "model"]).1]
    rfl
  · exact ((build_techniques_cross_product ideaEx "chef"
      ["scale", "model"]).2.1 ["minmax", "none"]).2
      (List.Forall₂.cons (by decide)
        (List.Forall₂.cons (by decide) List.Forall₂.nil))
  · exact (build_techniques_cross_product ideaEx "chef"
      ["scale", "model"]).2.2.2 1 (by decide) rfl

/-! ## Columns and frames

A pandas `DataFrame` is modelled as an ordered list of named columns;
cell values are exact rationals (`Rat`), idealising the source's machine
floats, and each column carries its pandas dtype.  Columns whose dtype is
`obj` are non-numeric (their `vals` only contribute a row count). -/

/-- A pandas column dtype; `dtype.kind in 'bifcu'` of the source is
`isNumeric` below (`obj` is the only non-numeric kind that occurs). -/
inductive DType where
  | bool
  | int64
  | float64
  | obj
  deriving DecidableEq, Repr

/-- `dtype.kind in 'bifcu'`. -/
def DType.isNumeric : DType → Bool
  | .obj => false
  | _ => true

/-- One named column of a frame. -/
structure Column where
  name : String
  dtype : DType
  vals : List Rat
  deriving DecidableEq, Repr

/-- A pandas `DataFrame`: ordered named columns. -/
abbrev Frame := List Column

/-- `df.columns`. -/
def frameNames (df : Frame) : List String := df.map Column.name

/-- `df[col]` as an optional lookup (pandas raises `KeyError` when the
label is absent). -/
def frameLookup (df : Frame) (c : String) : Option (List Rat) :=
  (df.find? (fun col => col.name == c)).map Column.vals

/-- `Data.create_column_list` (src/ml_funnel/data.py):

```python
temp_list = []
prefixes_list = []
for prefix in prefixes:
    temp_list = [x for x in df if x.startswith(prefix)]
    prefixes_list.extend(temp_list)
col_list = cols + prefixes_list
```
-/
def create_column_list (df : Frame) (prefs cols : List String) : List String :=
  cols ++ prefs.flatMap (fun p => (frameNames df).filter (fun x => x.startsWith p))

/-! ## Numeric helpers for the drop operations (exact-rational pandas) -/

/-- Sum of a column. -/
def listSum (l : List Rat) : Rat := l.foldr (· + ·) 0

/-- `Series.mean()` (division by zero yields `0` in `Rat`; the callers
below guard the empty case separately, mirroring pandas `NaN`). -/
def listMean (l : List Rat) : Rat := listSum l / l.length

/-- Centered cross moment `Σ (x - x̄)(y - ȳ)` over the row-aligned pairs. -/
def sxy (xs ys : List Rat) : Rat :=
  listSum ((xs.zip ys).map (fun p => (p.1 - listMean xs) * (p.2 - listMean ys)))

/-- Centered second moment `Σ (x - x̄)²`. -/
def sxx (xs : List Rat) : Rat := sxy xs xs

/-- `abs(corr(x, y)) > t` for the Pearson correlation, without square
roots: for `t ≥ 0` it is `sxy² > t² · sxx · syy`, a zero variance is
pandas `NaN` (every comparison with it is false), and a negative
threshold is always exceeded by `abs(corr)`. -/
def absCorrGt (xs ys : List Rat) (t : Rat) : Bool :=
  if sxx xs = 0 ∨ sxx ys = 0 then false
  else if t < 0 then true
  else decide (t ^ 2 * sxx xs * sxx ys < sxy xs ys ^ 2)

/-- `df[col].mean() < threshold`, false on an empty column (pandas
`NaN < t`). -/
def meanLtBool (vs : List Rat) (t : Rat) : Bool :=
  if vs.isEmpty then false else decide (listMean vs < t)

/-! ## C2: the column-dropping operations (src/ml_funnel/data.py)

`Data` state relevant to the dropped-column audit trail: the frame and
the cumulative `dropped_columns` list.  Each operation returns the state
after the call together with the exception it raised, if any; an
exception leaves behind exactly the mutations performed before the raise
(the source mutates `self.df` in place). -/

structure DataState where
  df : Frame
  dropped_columns : List String
  deriving DecidableEq, Repr

/-- `Data.drop_cols`: computes the column list via
`create_column_list`, drops it from the frame (pandas `drop` raises
`KeyError` before mutating anything when a label is absent), then
extends `dropped_columns` with the computed list. -/
def dropColsOp (s : DataState) (prefs cols : List String) :
    DataState × Option PyErr :=
  let computed := create_column_list s.df prefs cols
  if computed.all (fun c => decide (c ∈ frameNames s.df)) then
    ({ df := s.df.filter (fun col => decide (col.name ∉ computed)),
       dropped_columns := s.dropped_columns ++ computed }, Option.none)
  else (s, some (.keyError "labels not contained in axis"))

/-- The list comprehension
`[c for c in upper.columns if any(upper[c] > threshold)]` of
`Data.drop_highly_correlated_cols`: a column is selected when some
strictly earlier column of the correlation matrix (the upper triangle
`k = 1`) has absolute correlation with it above the threshold.  `prev`
accumulates the columns already passed. -/
def corrDropList (t : Rat) : Frame → Frame → List String
  | _, [] => []
  | prev, col :: rest =>
    (if prev.any (fun p => absCorrGt p.vals col.vals t) then [col.name] else [])
      ++ corrDropList t (prev ++ [col]) rest

/-- `Data.drop_highly_correlated_cols`: when the `cols` argument is the
string `'all'` it is replaced by `df.columns`; when the resulting list is
empty the loop body never runs and the later use of `upper` raises
`NameError` (nothing mutated); otherwise `df.corr()` ranges over the
numeric columns of the whole frame, the selected columns are dropped and
appended to `dropped_columns`. -/
def dropHighlyCorrelatedOp (s : DataState) (useAll : Bool) (cols : List String)
    (t : Rat) : DataState × Option PyErr :=
  let colsEff := if useAll then frameNames s.df else cols
  if colsEff.isEmpty then (s, some (.nameError "upper"))
  else
    let drops := corrDropList t [] (s.df.filter (fun c => c.dtype.isNumeric))
    ({ df := s.df.filter (fun col => decide (col.name ∉ drops)),
       dropped_columns := s.dropped_columns ++ drops }, Option.none)

/-- The loop of `Data.drop_infrequent_cols`: each boolean column whose
mean is below the threshold is dropped in place and appended to
`dropped_columns`; a missing label raises `KeyError` at `df[col]`,
keeping the mutations already performed. -/
def dropInfrequentGo (t : Rat) (s : DataState) :
    List String → DataState × Option PyErr
  | [] => (s, Option.none)
  | col :: rest =>
    match frameLookup s.df col with
    | Option.none => (s, some (.keyError col))
    | some vs =>
      if meanLtBool vs t then
        dropInfrequentGo t
          { df := s.df.filter (fun c => decide (c.name ≠ col)),
            dropped_columns := s.dropped_columns ++ [col] } rest
      else dropInfrequentGo t s rest

/-- The three column-dropping operations of `Data`, with their arguments. -/
inductive DataOp where
  | dropCols (prefs cols : List String)
  | dropHighlyCorrelated (useAll : Bool) (cols : List String) (threshold : Rat)
  | dropInfrequent (bools : List String) (threshold : Rat)

def stepOp (s : DataState) : DataOp → DataState × Option PyErr
  | .dropCols prefs cols => dropColsOp s prefs cols
  | .dropHighlyCorrelated u c t => dropHighlyCorrelatedOp s u c t
  | .dropInfrequent b t => dropInfrequentGo t s b

/-- A sequence of dropping operations, stopping at the first raised
exception (which propagates out of the Python call). -/
def runOps (s : DataState) : List DataOp → DataState × Option PyErr
  | [] => (s, Option.none)
  | op :: rest =>
    match stepOp s op with
    | (s', Option.none) => runOps s' rest
    | (s', some e) => (s', some e)

theorem mem_frameNames_filterP (df : Frame) (p : String → Bool) (c : String) :
    c ∈ frameNames (df.filter (fun col => p col.name)) ↔
      c ∈ frameNames df ∧ p c = true := by
  simp only [frameNames, List.mem_map, List.mem_filter]
  constructor
  · rintro ⟨col, ⟨hcol, hp⟩, rfl⟩
    exact ⟨⟨col, hcol, rfl⟩, hp⟩
  · rintro ⟨⟨col, hcol, rfl⟩, hp⟩
    exact ⟨col, ⟨hcol, hp⟩, rfl⟩

theorem corrDropList_subset (t : Rat) :
    ∀ (rest prev : Frame), corrDropList t prev rest ⊆ frameNames rest := by
  intro rest
  induction rest with
  | nil => intro prev c hc; simp [corrDropList] at hc
  | cons col rest ih =>
    intro prev c hc
    simp only [corrDropList, List.mem_append] at hc
    rcases hc with hc | hc
    · by_cases hany : prev.any (fun p => absCorrGt p.vals col.vals t)
      · simp [hany] at hc
        subst hc
        simp [frameNames]
      · simp [hany] at hc
    · have := ih (prev ++ [col]) hc
      simp only [frameNames, List.map_cons, List.mem_cons]
      exact Or.inr this

theorem frameNames_filter_subset (df : Frame) (p : Column → Bool) :
    frameNames (df.filter p) ⊆ frameNames df := by
  intro c hc
  simp only [frameNames, List.mem_map, List.mem_filter] at hc ⊢
  obtain ⟨col, ⟨hcol, _⟩, rfl⟩ := hc
  exact ⟨col, hcol, rfl⟩

theorem frameLookup_mem {df : Frame} {c : String} {vs : List Rat}
    (h : frameLookup df c = some vs) : c ∈ frameNames df := by
  unfold frameLookup at h
  cases hf : df.find? (fun col => col.name == c) with
  | none => rw [hf] at h; simp at h
  | some col =>
    have hmem := List.mem_of_find?_eq_some hf
    have hname : col.name = c := by
      have := List.find?_some hf
      simpa using this
    subst hname
    exact List.mem_map.2 ⟨col, hmem, rfl⟩

/-- The audit-trail property shared by the three dropping operations,
relating the state `s` before a call to the state `s'` after it. -/
def auditStep (s s' : DataState) : Prop :=
  ∃ delta,
    s'.dropped_columns = s.dropped_columns ++ delta
    ∧ (∀ c, c ∈ delta ↔ (c ∈ frameNames s.df ∧ c ∉ frameNames s'.df))
    ∧ frameNames s'.df ⊆ frameNames s.df

theorem auditStep_refl (s : DataState) : auditStep s s :=
  ⟨[], by simp, fun c => by simp, fun c hc => hc⟩

/-- The filter-and-extend shape shared by `drop_cols` and
`drop_highly_correlated_cols`: dropping a block `delta` of existing
columns and appending it to the audit list satisfies `auditStep`. -/
theorem auditStep_filter (s : DataState) (delta : List String)
    (hsub : ∀ c ∈ delta, c ∈ frameNames s.df) :
    auditStep s
      { df := s.df.filter (fun col => decide (col.name ∉ delta)),
        dropped_columns := s.dropped_columns ++ delta } := by
  refine ⟨delta, rfl, ?_, frameNames_filter_subset _ _⟩
  intro c
  have hf := mem_frameNames_filterP s.df (fun n => decide (n ∉ delta)) c
  constructor
  · intro hc
    refine ⟨hsub c hc, ?_⟩
    intro hcontra
    have hgot : c ∉ delta := by simpa using (hf.1 hcontra).2
    exact hgot hc
  · rintro ⟨hmem, hnot⟩
    by_contra hc
    exact hnot (hf.2 ⟨hmem, by simpa using hc⟩)

theorem dropColsOp_spec (s : DataState) (prefs cols : List String) :
    auditStep s (dropColsOp s prefs cols).1 := by
  unfold dropColsOp
  by_cases hall : (create_column_list s.df prefs cols).all
      (fun c => decide (c ∈ frameNames s.df))
  · simp only [hall, if_true]
    refine auditStep_filter s _ ?_
    intro c hc
    simpa using List.all_eq_true.1 hall c hc
  · simp only [hall, if_false]
    exact auditStep_refl s

theorem dropHighlyCorrelatedOp_spec (s : DataState) (u : Bool)
    (cols : List String) (t : Rat) :
    auditStep s (dropHighlyCorrelatedOp s u cols t).1 := by
  unfold dropHighlyCorrelatedOp
  by_cases hempty : (if u then frameNames s.df else cols).isEmpty
  · simp only [hempty, if_true]
    exact auditStep_refl s
  · simp only [hempty, if_false]
    refine auditStep_filter s _ ?_
    intro c hc
    exact frameNames_filter_subset _ _
      (corrDropList_subset t (s.df.filter (fun c => c.dtype.isNumeric)) [] hc)

theorem auditStep_trans {s s' s'' : DataState}
    (h1 : auditStep s s') (h2 : auditStep s' s'') : auditStep s s'' := by
  obtain ⟨d1, hd1, he1, hs1⟩ := h1
  obtain ⟨d2, hd2, he2, hs2⟩ := h2
  refine ⟨d1 ++ d2, ?_, ?_, fun c hc => hs1 (hs2 hc)⟩
  · rw [hd2, hd1, List.append_assoc]
  intro c
  constructor
  · intro hc
    rcases List.mem_append.1 hc with hc | hc
    · have := (he1 c).1 hc
      refine ⟨this.1, fun hfin => this.2 (hs2 hfin)⟩
    · have := (he2 c).1 hc
      exact ⟨hs1 this.1, this.2⟩
  · rintro ⟨hmem, hnot⟩
    by_cases hmid : c ∈ frameNames s'.df
    · exact List.mem_append.2 (Or.inr ((he2 c).2 ⟨hmid, hnot⟩))
    · exact List.mem_append.2 (Or.inl ((he1 c).2 ⟨hmem, hmid⟩))

theorem dropInfrequentGo_spec (t : Rat) (bools : List String) :
    ∀ s : DataState, auditStep s (dropInfrequentGo t s bools).1 := by
  induction bools with
  | nil => intro s; exact auditStep_refl s
  | cons col rest ih =>
    intro s
    unfold dropInfrequentGo
    cases hlook : frameLookup s.df col with
    | none => exact auditStep_refl s
    | some vs =>
      by_cases hmean : meanLtBool vs t
      · simp only [hmean, if_true]
        refine auditStep_trans ?_ (ih _)
        have hfilter : (s.df.filter (fun c => decide (c.name ≠ col)))
            = s.df.filter (fun c => decide (c.name ∉ [col])) := by
          simp
        have := auditStep_filter s [col]
          (by intro c hc; simp at hc; subst hc; exact frameLookup_mem hlook)
        rw [← hfilter] at this
        exact this
      · simp only [hmean, if_false]
        exact ih s

/-- The per-operation audit-trail specification: every dropping operation
appends a block `delta` to `dropped_columns`, `delta` is exactly the set
of column names it removed from the frame, and no operation adds columns. -/
theorem stepOp_spec (s : DataState) (op : DataOp) :
    auditStep s (stepOp s op).1 := by
  cases op with
  | dropCols prefs cols => exact dropColsOp_spec s prefs cols
  | dropHighlyCorrelated u cols t => exact dropHighlyCorrelatedOp_spec s u cols t
  | dropInfrequent bools t => exact dropInfrequentGo_spec t bools s

theorem runOps_audit (ops : List DataOp) :
    ∀ s : DataState, auditStep s (runOps s ops).1 := by
  induction ops with
  | nil => intro s; exact auditStep_refl s
  | cons op rest ih =>
    intro s
    have hspec := stepOp_spec s op
    rcases hstep : stepOp s op with ⟨s', e⟩
    rw [hstep] at hspec
    cases e with
    | none =>
      have heq : runOps s (op :: rest) = runOps s' rest := by
        simp [runOps, hstep]
      rw [heq]
      exact auditStep_trans hspec (ih s')
    | some err =>
      have heq : runOps s (op :: rest) = (s', some err) := by
        simp [runOps, hstep]
      rw [heq]
      exact hspec

/-- C2: `dropped_columns` is an append-only audit trail.  Across any
sequence of dropping operations the old list is a prefix of the new one
(no entry is removed or reordered), every column removed from the frame
during the run ends up in the final list, and each single operation
appends exactly the names of the columns it removed from the frame. -/
theorem dropped_columns_audit_trail (s : DataState) (ops : List DataOp) :
    s.dropped_columns <+: (runOps s ops).1.dropped_columns
    ∧ (∀ c, c ∈ frameNames s.df → c ∉ frameNames (runOps s ops).1.df →
        c ∈ (runOps s ops).1.dropped_columns)
    ∧ (∀ op, ∃ delta,
        (stepOp s op).1.dropped_columns = s.dropped_columns ++ delta
        ∧ ∀ c, c ∈ delta ↔
            (c ∈ frameNames s.df ∧ c ∉ frameNames (stepOp s op).1.df)) := by
  obtain ⟨d, hd, he, _⟩ := runOps_audit ops s
  refine ⟨?_, ?_, ?_⟩
  · rw [hd]; exact List.prefix_append _ _
  · intro c hmem hnot
    rw [hd]
    exact List.mem_append.2 (Or.inr ((he c).2 ⟨hmem, hnot⟩))
  · intro op
    obtain ⟨d', hd', he', _⟩ := stepOp_spec s op
    exact ⟨d', hd', he'⟩

/-- Concrete two-column state used to witness
`dropped_columns_audit_trail`. -/
def dsEx : DataState :=
  { df := [⟨"a", .float64, []⟩, ⟨"b", .float64, []⟩], dropped_columns := [] }

theorem dropped_columns_audit_trail_witness :
    "a" ∈ (runOps dsEx [.dropCols [] ["a"]]).1.dropped_columns :=
  (dropped_columns_audit_trail dsEx [.dropCols [] ["a"]]).2.1 "a"
    (by decide) (by decide)

/-! ## C3: `Data.column_types` (src/ml_funnel/data.py)

The seven bucket lists are each built by `create_column_list` from the
user-supplied explicit lists and prefix lists; nothing deduplicates them
or checks them against each other.  `column_dict` is built by
`dict.fromkeys(bool_cols, bool)` followed by five `update` calls with
`fromkeys(cat_cols, 'category')`, `fromkeys(float_cols, float)`,
`fromkeys(int_cols, int)`, `fromkeys(interact_cols, 'category')` and
`fromkeys(str_cols, str)` (note: `list_cols` is never entered). -/

/-- A datatype value stored in `column_dict`. -/
inductive PyType where
  | bool
  | category
  | float
  | int
  | str
  deriving DecidableEq, Repr

/-- The attributes set by `Data.column_types`. -/
structure ColumnTypesResult where
  bool_cols : List String
  cat_cols : List String
  float_cols : List String
  int_cols : List String
  interact_cols : List String
  list_cols : List String
  str_cols : List String
  num_cols : List String
  all_cols : List String
  column_dict : List (String × PyType)
  deriving DecidableEq, Repr

/-- `Data.column_types`.  Arguments appear in the source's keyword order:
explicit column lists and prefix lists per datatype. -/
def column_types (df : Frame)
    (cat_cols cat_prefs float_cols float_prefs int_cols int_prefs
     bool_cols bool_prefs interact_cols interact_prefs
     list_cols list_prefs str_cols str_prefs : List String) :
    ColumnTypesResult :=
  let boolC := create_column_list df bool_prefs bool_cols
  let catC := create_column_list df cat_prefs cat_cols
  let floatC := create_column_list df float_prefs float_cols
  let intC := create_column_list df int_prefs int_cols
  let interactC := create_column_list df interact_prefs interact_cols
  let listC := create_column_list df list_prefs list_cols
  let strC := create_column_list df str_prefs str_cols
  { bool_cols := boolC
    cat_cols := catC
    float_cols := floatC
    int_cols := intC
    interact_cols := interactC
    list_cols := listC
    str_cols := strC
    num_cols := floatC ++ intC
    all_cols := frameNames df
    column_dict :=
      dupdate (dupdate (dupdate (dupdate (dupdate
        (dupdate [] (boolC.map (fun c => (c, PyType.bool))))
        (catC.map (fun c => (c, PyType.category))))
        (floatC.map (fun c => (c, PyType.float))))
        (intC.map (fun c => (c, PyType.int))))
        (interactC.map (fun c => (c, PyType.category))))
        (strC.map (fun c => (c, PyType.str))) }

theorem dget_dupdate_const {β : Type} (ks : List String) (v : β) :
    ∀ (d : List (String × β)) (k : String),
      dget (dupdate d (ks.map (fun c => (c, v)))) k
        = if k ∈ ks then some v else dget d k := by
  induction ks with
  | nil => intro d k; simp [dupdate]
  | cons k' ks ih =>
    intro d k
    show dget (dupdate (dset d k' v) (ks.map (fun c => (c, v)))) k = _
    rw [ih (dset d k' v) k, dget_dset]
    by_cases h1 : k ∈ ks
    · simp [h1]
    · by_cases h2 : k = k' <;> simp [h1, h2]

/-- The keys of a modelled Python dict. -/
def dkeys {β : Type} (d : List (String × β)) : List String := d.map Prod.fst

theorem dkeys_dset {β : Type} (d : List (String × β)) (k : String) (v : β) :
    dkeys (dset d k v) = if k ∈ dkeys d then dkeys d else dkeys d ++ [k] := by
  induction d with
  | nil => simp [dset, dkeys]
  | cons p rest ih =>
    obtain ⟨pk, pv⟩ := p
    by_cases h : k = pk
    · subst h; simp [dset, dkeys]
    · simp only [dset, if_neg h, dkeys, List.map_cons]
      rw [show (dset rest k v).map Prod.fst = dkeys (dset rest k v) from rfl, ih]
      simp only [dkeys]
      by_cases h2 : k ∈ List.map Prod.fst rest <;> simp [h2, h]

theorem nodup_dkeys_dset {β : Type} (d : List (String × β)) (k : String) (v : β)
    (h : (dkeys d).Nodup) : (dkeys (dset d k v)).Nodup := by
  rw [dkeys_dset]
  by_cases hk : k ∈ dkeys d
  · simpa [hk] using h
  · simp only [hk, if_false]
    simpa [List.nodup_append] using ⟨h, hk⟩

theorem nodup_dkeys_dupdate {β : Type} (entries : List (String × β)) :
    ∀ d : List (String × β), (dkeys d).Nodup → (dkeys (dupdate d entries)).Nodup := by
  induction entries with
  | nil => intro d h; exact h
  | cons p rest ih =>
    intro d h
    exact ih (dset d p.1 p.2) (nodup_dkeys_dset d p.1 p.2 h)

/-- Two-column frame used for the C3 counterexample. -/
def dfC3 : Frame := [⟨"a", .float64, []⟩, ⟨"b", .float64, []⟩]

/-- `column_types` called with column `"a"` listed both under `cat_cols`
and under `float_cols`, and column `"b"` listed nowhere. -/
def ctC3 : ColumnTypesResult :=
  column_types dfC3 ["a"] [] ["a"] [] [] [] [] [] [] [] [] [] [] []

/-- C3 counterexample: after `column_types` runs, a column passed in two
explicit lists appears in two type buckets, and a frame column passed in
no list appears in no bucket — refuting, at this concrete input, the
claim that every column of the frame belongs to exactly one declared
type bucket with no column in more than one. -/
theorem column_types_buckets_not_disjoint :
    "a" ∈ ctC3.cat_cols ∧ "a" ∈ ctC3.float_cols
    ∧ "b" ∈ frameNames dfC3
    ∧ "b" ∉ ctC3.bool_cols ∧ "b" ∉ ctC3.cat_cols ∧ "b" ∉ ctC3.float_cols
    ∧ "b" ∉ ctC3.int_cols ∧ "b" ∉ ctC3.interact_cols ∧ "b" ∉ ctC3.list_cols
    ∧ "b" ∉ ctC3.str_cols := by
  decide

/-- C3 (amended): the bucket lists produced by `column_types` may
overlap, and a frame column named in no list belongs to no bucket; what
does hold is that `column_dict` assigns each classified column a single
datatype — its key list is duplicate-free, and a column's entry is
determined by the last bucket containing it in the update order bool,
cat, float, int, interact, str (`list_cols` never enters
`column_dict`). -/
theorem column_types_dict_single_datatype (df : Frame)
    (cat_cols cat_prefs float_cols float_prefs int_cols int_prefs
     bool_cols bool_prefs interact_cols interact_prefs
     list_cols list_prefs str_cols str_prefs : List String) :
    (dkeys (column_types df cat_cols cat_prefs float_cols float_prefs
        int_cols int_prefs bool_cols bool_prefs interact_cols interact_prefs
        list_cols list_prefs str_cols str_prefs).column_dict).Nodup
    ∧ ∀ c, dget (column_types df cat_cols cat_prefs float_cols float_prefs
        int_cols int_prefs bool_cols bool_prefs interact_cols interact_prefs
        list_cols list_prefs str_cols str_prefs).column_dict c
      = (if c ∈ create_column_list df str_prefs str_cols then some PyType.str
         else if c ∈ create_column_list df interact_prefs interact_cols then
           some PyType.category
         else if c ∈ create_column_list df int_prefs int_cols then some PyType.int
         else if c ∈ create_column_list df float_prefs float_cols then
           some PyType.float
         else if c ∈ create_column_list df cat_prefs cat_cols then
           some PyType.category
         else if c ∈ create_column_list df bool_prefs bool_cols then
           some PyType.bool
         else Option.none) := by
  constructor
  · refine nodup_dkeys_dupdate _ _ (nodup_dkeys_dupdate _ _
      (nodup_dkeys_dupdate _ _ (nodup_dkeys_dupdate _ _
      (nodup_dkeys_dupdate _ _ (nodup_dkeys_dupdate _ _ ?_)))))
    simp [dkeys]
  · intro c
    show dget (dupdate _ _) c = _
    rw [dget_dupdate_const, dget_dupdate_const, dget_dupdate_const,
      dget_dupdate_const, dget_dupdate_const, dget_dupdate_const]
    simp [dget]

/-! ## C4 and C5: `SimpleLoader.load` (src/simplify/core/base.py)

```python
if isinstance(getattr(self, component), str):
    try:
        return getattr(import_module(self.module), getattr(self, component))
    except (ImportError, AttributeError):
        try:
            return getattr(import_module(self.default_module),
                           getattr(self, component))
        except (ImportError, AttributeError):
            try:
                return getattr(import_module(self.default_module),
                               self.default_components[component])
            except (ImportError, AttributeError):
                raise ImportError(' '.join(
                    [getattr(self, component), 'is neither in',
                     self.module, 'nor', self.default_module]))
else:
    return getattr(self, component)
```

The importable world is a `ModuleEnv`: module name to namespace to
object, where objects are opaque identifiers (`String`).  A failing
`import_module` (`ImportError`) and a failing `getattr`
(`AttributeError`) are caught by the same `except` clauses, so in the
first two stages both are one `Option.none` of the composite lookup.
In the third stage the call arguments evaluate left to right:
`import_module(self.default_module)` runs before the subscript
`self.default_components[component]`, so an unimportable default module
raises `ImportError` there (caught and re-raised as the described
`ImportError`); only when the default module imports does the subscript
run, and its `KeyError` on a missing key is caught by none of the
`except` clauses.  The embedding also returns the instance after the
call (the method assigns no attribute, so it is returned unchanged) and
the trace of `(module, attribute)` import lookups the call performed. -/

/-- The importable world: module name to namespace to object. -/
abbrev ModuleEnv := String → Option (String → Option String)

/-- One `getattr(import_module(m), a)` probe: `Option.none` when either
the import or the attribute access fails. -/
def lookupIn (env : ModuleEnv) (modName attr : String) : Option String :=
  (env modName).bind (fun ns => ns attr)

/-- A stored attribute of a `SimpleLoader`: either a still-unresolved
name (`str`) or an already-loaded object. -/
inductive LoaderVal where
  | str (s : String)
  | obj (o : String)
  deriving DecidableEq, Repr

/-- The `SimpleLoader` instance state: its two module names, its stored
attributes, and the optional `default_components` fallback table
(`Option.none` models a missing attribute, whose `AttributeError` is
caught). -/
structure SimpleLoader where
  name : String
  module : String
  default_module : String
  attrs : String → LoaderVal
  default_components : Option (String → Option String)

/-- The message of the `ImportError` raised by `SimpleLoader.load`:
`' '.join([component_value, 'is neither in', module, 'nor',
default_module])`. -/
def loadMsg (s : String) (l : SimpleLoader) : String :=
  s ++ " is neither in " ++ l.module ++ " nor " ++ l.default_module

/-- `SimpleLoader.load`.  Returns the Python result (value or raised
exception), the instance after the call, and the ordered trace of
`(module, attribute)` import lookups performed during the call. -/
def load (env : ModuleEnv) (l : SimpleLoader) (component : String) :
    Except PyErr String × SimpleLoader × List (String × String) :=
  match l.attrs component with
  | .obj o => (Except.ok o, l, [])
  | .str s =>
    match lookupIn env l.module s with
    | some o => (Except.ok o, l, [(l.module, s)])
    | Option.none =>
      match lookupIn env l.default_module s with
      | some o => (Except.ok o, l, [(l.module, s), (l.default_module, s)])
      | Option.none =>
        match env l.default_module with
        | Option.none =>
          (Except.error (.importError (loadMsg s l)), l,
            [(l.module, s), (l.default_module, s)])
        | some ns =>
          match l.default_components with
          | Option.none =>
            (Except.error (.importError (loadMsg s l)), l,
              [(l.module, s), (l.default_module, s)])
          | some tbl =>
            match tbl component with
            | Option.none =>
              (Except.error (.keyError component), l,
                [(l.module, s), (l.default_module, s)])
            | some s2 =>
              match ns s2 with
              | some o =>
                (Except.ok o, l,
                  [(l.module, s), (l.default_module, s), (l.default_module, s2)])
              | Option.none =>
                (Except.error (.importError (loadMsg s l)), l,
                  [(l.module, s), (l.default_module, s), (l.default_module, s2)])

/-- The fallback-table lookup fails: the default module does not import,
or the table attribute is missing, or the key is missing, or the
resolved name is absent from the imported default module. -/
def tableLookupFails (env : ModuleEnv) (l : SimpleLoader) (component : String) :
    Prop :=
  match env l.default_module with
  | Option.none => True
  | some ns =>
    match l.default_components with
    | Option.none => True
    | some tbl =>
      match tbl component with
      | Option.none => True
      | some s2 => ns s2 = Option.none

/-- C4 as stated by the spec claim: whenever the stored component is a
string and all three lookups fail, `load` raises `ImportError` with the
message naming both modules. -/
def loadClaimC4 : Prop :=
  ∀ (env : ModuleEnv) (l : SimpleLoader) (component s : String),
    l.attrs component = .str s →
    lookupIn env l.module s = Option.none →
    lookupIn env l.default_module s = Option.none →
    tableLookupFails env l component →
    (load env l component).1 = Except.error (.importError (loadMsg s l))

/-- Empty importable world: no module can be imported. -/
def envEmpty : ModuleEnv := fun _ => Option.none

/-- A world where `simplify.core` imports but exports nothing, and no
other module imports. -/
def envCoreEmpty : ModuleEnv := fun m =>
  if m = "simplify.core" then some (fun _ => Option.none) else Option.none

/-- A loader whose `default_components` table exists but is empty, and
whose every attribute is the unresolved string `"xgb"`. -/
def loaderKeyErr : SimpleLoader :=
  { name := "model"
    module := "xgboost"
    default_module := "simplify.core"
    attrs := fun _ => .str "xgb"
    default_components := some (fun _ => Option.none) }

/-- C4 counterexample: with the default module importable but empty, all
three lookups failing, and the `default_components` table present and
missing the key, `load` raises `KeyError` for the component — not
`ImportError` — so the claim as stated is false.  (When the default
module is not importable at all, the described `ImportError` is raised,
since `import_module(self.default_module)` is evaluated before the
table subscript.) -/
theorem load_import_error_claim_false :
    ¬ loadClaimC4
    ∧ (load envCoreEmpty loaderKeyErr "algorithm").1
        = Except.error (.keyError "algorithm")
    ∧ (load envEmpty loaderKeyErr "algorithm").1
        = Except.error (.importError (loadMsg "xgb" loaderKeyErr)) := by
  refine ⟨?_, rfl, rfl⟩
  intro h
  have := h envCoreEmpty loaderKeyErr "algorithm" "xgb" rfl rfl rfl trivial
  rw [show (load envCoreEmpty loaderKeyErr "algorithm").1
      = Except.error (.keyError "algorithm") from rfl] at this
  exact PyErr.noConfusion (Except.error.inj this)

/-- C4 (amended): for a string-valued component `load` returns the
attribute from `module` if present there, otherwise from
`default_module`, otherwise via the `default_components` table; when all
three lookups fail it raises `ImportError` naming both modules — except
that when the default module itself imports successfully and the table
exists but has no entry for the component, a `KeyError` for the
component escapes instead (an unimportable default module always yields
the described `ImportError`, because `import_module(self.default_module)`
is evaluated before the table subscript).  A non-string component is
returned unchanged and never raises. -/
theorem load_resolution_order (env : ModuleEnv) (l : SimpleLoader)
    (component : String) :
    (∀ o, l.attrs component = .obj o → (load env l component).1 = Except.ok o)
    ∧ (∀ s, l.attrs component = .str s →
        (∀ o, lookupIn env l.module s = some o →
          (load env l component).1 = Except.ok o)
        ∧ (lookupIn env l.module s = Option.none →
            (∀ o, lookupIn env l.default_module s = some o →
              (load env l component).1 = Except.ok o)
            ∧ (lookupIn env l.default_module s = Option.none →
                (env l.default_module = Option.none →
                  (load env l component).1
                    = Except.error (.importError (loadMsg s l)))
                ∧ (∀ ns, env l.default_module = some ns →
                    (l.default_components = Option.none →
                      (load env l component).1
                        = Except.error (.importError (loadMsg s l)))
                    ∧ (∀ tbl, l.default_components = some tbl →
                        (tbl component = Option.none →
                          (load env l component).1
                            = Except.error (.keyError component))
                        ∧ (∀ s2, tbl component = some s2 →
                            (∀ o, ns s2 = some o →
                              (load env l component).1 = Except.ok o)
                            ∧ (ns s2 = Option.none →
                                (load env l component).1
                                  = Except.error (.importError (loadMsg s l))))))))) := by
  constructor
  · intro o ho
    simp [load, ho]
  · intro s hs
    constructor
    · intro o h1
      simp [load, hs, h1]
    · intro h1
      constructor
      · intro o h2
        simp [load, hs, h1, h2]
      · intro h2
        constructor
        · intro h3
          simp [load, hs, h1, h2, h3]
        · intro ns h3
          constructor
          · intro h4
            simp [load, hs, h1, h2, h3, h4]
          · intro tbl h4
            constructor
            · intro h5
              simp [load, hs, h1, h2, h3, h4, h5]
            · intro s2 h5
              constructor
              · intro o h6
                simp [load, hs, h1, h2, h3, h4, h5, h6]
              · intro h6
                simp [load, hs, h1, h2, h3, h4, h5, h6]

/-- A world where `xgboost` exports `xgb`, for the C4/C5 witnesses. -/
def envXgb : ModuleEnv := fun m =>
  if m = "xgboost" then
    some (fun a => if a = "xgb" then some "XGBClassifier" else Option.none)
  else Option.none

/-- A loader whose `algorithm` attribute is the unresolved string
`"xgb"`, resolvable in its `module`. -/
def loaderXgb : SimpleLoader :=
  { name := "model"
    module := "xgboost"
    default_module := "simplify.core"
    attrs := fun a => if a = "cached" then .obj "AlreadyLoaded" else .str "xgb"
    default_components := Option.none }

theorem load_resolution_order_witness :
    (load envXgb loaderXgb "algorithm").1 = Except.ok "XGBClassifier"
    ∧ (load envXgb loaderXgb "cached").1 = Except.ok "AlreadyLoaded"
    ∧ (load envEmpty loaderXgb "algorithm").1
        = Except.error (.importError (loadMsg "xgb" loaderXgb))
    ∧ (load envCoreEmpty loaderKeyErr "algorithm").1
        = Except.error (.keyError "algorithm") := by
  refine ⟨?_, ?_, ?_, ?_⟩
  · exact ((load_resolution_order envXgb loaderXgb "algorithm").2 "xgb" rfl).1
      "XGBClassifier" rfl
  · exact (load_resolution_order envXgb loaderXgb "cached").1 "AlreadyLoaded" rfl
  · exact ((((load_resolution_order envEmpty loaderXgb "algorithm").2 "xgb"
      rfl).2 rfl).2 rfl).1 rfl
  · exact (((((((load_resolution_order envCoreEmpty loaderKeyErr
      "algorithm").2 "xgb" rfl).2 rfl).2 rfl).2 (fun _ => Option.none) rfl).2
      (fun _ => Option.none) rfl).1 rfl)

/-- C5 as stated by the spec claim: after a first successful `load`, the
callable is cached on the instance, so a second `load` of the same
component performs no module lookup. -/
def loadClaimC5 : Prop :=
  ∀ (env : ModuleEnv) (l : SimpleLoader) (component : String) (o : String),
    (load env l component).1 = Except.ok o →
    (load env (load env l component).2.1 component).2.2 = []

/-- C5 counterexample: `load` returns its instance unchanged and caches
nothing, so the second application performs the same module lookup
again — the lookup trace of the repeat call is the same non-empty list,
refuting the claim that later applications reuse a stored callable. -/
theorem load_does_not_cache :
    ¬ loadClaimC5
    ∧ (load envXgb loaderXgb "algorithm").2.1 = loaderXgb
    ∧ (load envXgb loaderXgb "algorithm").2.2 = [("xgboost", "xgb")]
    ∧ (load envXgb (load envXgb loaderXgb "algorithm").2.1 "algorithm").2.2
        = [("xgboost", "xgb")] := by
  refine ⟨?_, rfl, rfl, rfl⟩
  intro h
  have := h envXgb loaderXgb "algorithm" "XGBClassifier" rfl
  rw [show (load envXgb (load envXgb loaderXgb "algorithm").2.1
      "algorithm").2.2 = [("xgboost", "xgb")] from rfl] at this
  exact List.noConfusion this

theorem load_instance_unchanged (env : ModuleEnv) (l : SimpleLoader)
    (component : String) : (load env l component).2.1 = l := by
  cases hattr : l.attrs component with
  | obj o => simp [load, hattr]
  | str s =>
    cases h1 : lookupIn env l.module s with
    | some o => simp [load, hattr, h1]
    | none =>
      cases h2 : lookupIn env l.default_module s with
      | some o => simp [load, hattr, h1, h2]
      | none =>
        cases h3 : env l.default_module with
        | none => simp [load, hattr, h1, h2, h3]
        | some ns =>
          cases h4 : l.default_components with
          | none => simp [load, hattr, h1, h2, h3, h4]
          | some tbl =>
            cases h5 : tbl component with
            | none => simp [load, hattr, h1, h2, h3, h4, h5]
            | some s2 =>
              cases h6 : ns s2 with
              | some o => simp [load, hattr, h1, h2, h3, h4, h5, h6]
              | none => simp [load, hattr, h1, h2, h3, h4, h5, h6]

/-- C5 (amended): resolution is lazy — a lookup happens only when `load`
is called on a still-string component — but nothing is cached: `load`
leaves the instance unchanged, every call on a string-valued component
performs at least one module lookup, and a repeated call does exactly
the same work as the first. -/
theorem load_lazy_not_cached (env : ModuleEnv) (l : SimpleLoader)
    (component : String) :
    (load env l component).2.1 = l
    ∧ (∀ s, l.attrs component = .str s → (load env l component).2.2 ≠ [])
    ∧ load env (load env l component).2.1 component = load env l component := by
  refine ⟨load_instance_unchanged env l component, ?_, ?_⟩
  · intro s hattr
    cases h1 : lookupIn env l.module s with
    | some o => simp [load, hattr, h1]
    | none =>
      cases h2 : lookupIn env l.default_module s with
      | some o => simp [load, hattr, h1, h2]
      | none =>
        cases h3 : env l.default_module with
        | none => simp [load, hattr, h1, h2, h3]
        | some ns =>
          cases h4 : l.default_components with
          | none => simp [load, hattr, h1, h2, h3, h4]
          | some tbl =>
            cases h5 : tbl component with
            | none => simp [load, hattr, h1, h2, h3, h4, h5]
            | some s2 =>
              cases h6 : ns s2 with
              | some o => simp [load, hattr, h1, h2, h3, h4, h5, h6]
              | none => simp [load, hattr, h1, h2, h3, h4, h5, h6]
  · rw [load_instance_unchanged env l component]

theorem load_lazy_not_cached_witness :
    (load envXgb loaderXgb "algorithm").2.2 ≠ [] :=
  (load_lazy_not_cached envXgb loaderXgb "algorithm").2.1 "xgb" rfl

/-! ## C6: `ParameterBuilder` (src/simplify/creator/content.py)

`draft` declares
`parameter_types = ['idea', 'selected', 'required', 'runtime',
'conditional']` (the `'search'` entry is commented out), and `apply`
iterates that list, dispatching to `_build_<type>`; the branch checking
`parameter_type == 'data_dependent'` — the only place that would forward
the `data` argument — is unreachable because `'data_dependent'` is not in
`parameter_types`.

Stage details modelled from the source:
* `_build_idea` resets the bunch to `{}` and updates it with
  `self.idea_parameters` when that attribute exists (`AttributeError`
  passed);
* `_build_selected` filters the bunch to `outline.selected` when it is a
  list, or to the keys of `outline.default` when it is otherwise truthy;
* `_build_required` updates the bunch with `outline.required`
  (`TypeError` on a `None` value is passed);
* `_build_runtime` sets `bunch[key] = getattr(self.author, value)` per
  entry; a missing author attribute aborts the stage silently (the inner
  handler's malformed `' '.join` raises `TypeError`, caught by the outer
  `except (AttributeError, TypeError): pass`), keeping earlier updates;
* `_build_conditional` calls `self._parent._build_conditional` when
  `'conditional' in outline`, passing `AttributeError` when the parent
  or its method is missing.

Parameter values are opaque strings. -/

/-- A parameter dictionary (string keys, opaque string values). -/
abbrev ParamDict := List (String × String)

/-- `outline.selected`: falsy, truthy-but-not-a-list (use the keys of
`outline.default`), or a list of keys. -/
inductive SelectedOpt where
  | no
  | useDefault
  | keys (ks : List String)
  deriving DecidableEq, Repr

/-- The `Outline` fields consulted by `ParameterBuilder` (the class
itself lives outside src/; its fields are read as plain attributes). -/
structure Outline where
  name : String
  selected : SelectedOpt
  default : ParamDict
  required : Option ParamDict
  runtime : Option (List (String × String))
  hasConditional : Bool
  data_dependent : List (String × String)

/-- The `ParameterBuilder` instance context: the idea-provided
parameters (when the injected attribute exists), the author object's
attributes for runtime values, and the parent's `_build_conditional`
when available. -/
structure PBContext where
  idea_parameters : Option ParamDict
  author : String → Option String
  parentConditional : Option (String → ParamDict → ParamDict)

/-- A data container passed to `apply` (attributes for data-dependent
parameters). -/
structure DataObject where
  attrs : String → Option String

/-- `ParameterBuilder._build_idea`. -/
def buildIdea (pb : PBContext) : ParamDict :=
  match pb.idea_parameters with
  | some ps => dupdate [] ps
  | Option.none => []

/-- `ParameterBuilder._build_selected`. -/
def buildSelected (o : Outline) (bunch : ParamDict) : ParamDict :=
  match o.selected with
  | .no => bunch
  | .useDefault => bunch.filter (fun p => (dkeys o.default).contains p.1)
  | .keys ks => bunch.filter (fun p => ks.contains p.1)

/-- `ParameterBuilder._build_required`. -/
def buildRequired (o : Outline) (bunch : ParamDict) : ParamDict :=
  match o.required with
  | some r => dupdate bunch r
  | Option.none => bunch

/-- The loop of `ParameterBuilder._build_runtime`; a missing author
attribute aborts the stage, keeping the updates already made. -/
def buildRuntimeGo (author : String → Option String) (bunch : ParamDict) :
    List (String × String) → ParamDict
  | [] => bunch
  | (k, v) :: rest =>
    match author v with
    | some value => buildRuntimeGo author (dset bunch k value) rest
    | Option.none => bunch

/-- `ParameterBuilder._build_runtime`. -/
def buildRuntime (pb : PBContext) (o : Outline) (bunch : ParamDict) : ParamDict :=
  match o.runtime with
  | some rt => buildRuntimeGo pb.author bunch rt
  | Option.none => bunch

/-- `ParameterBuilder._build_conditional`. -/
def buildConditional (pb : PBContext) (o : Outline) (bunch : ParamDict) :
    ParamDict :=
  if o.hasConditional then
    match pb.parentConditional with
    | some f => f o.name bunch
    | Option.none => bunch
  else bunch

/-- `ParameterBuilder.draft`'s `parameter_types` (the `'search'` stage is
commented out in the source). -/
def parameter_types : List String :=
  ["idea", "selected", "required", "runtime", "conditional"]

/-- One iteration of the dispatch loop in `ParameterBuilder.apply`.  The
`data` argument would be forwarded only by the `'data_dependent'`
branch, which would then call a `_build_data_dependent` method that does
not exist; the branch is unreachable because `'data_dependent'` is not
in `parameter_types`. -/
def applyStage (pb : PBContext) (o : Outline) (data : Option DataObject)
    (bunch : ParamDict) (ptype : String) : ParamDict :=
  if ptype = "data_dependent" then bunch
  else if ptype = "idea" then buildIdea pb
  else if ptype = "selected" then buildSelected o bunch
  else if ptype = "required" then buildRequired o bunch
  else if ptype = "runtime" then buildRuntime pb o bunch
  else if ptype = "conditional" then buildConditional pb o bunch
  else bunch

/-- `ParameterBuilder.apply`: folds the builder stages over
`parameter_types` in order. -/
def applyPB (pb : PBContext) (o : Outline) (data : Option DataObject) :
    ParamDict :=
  parameter_types.foldl (applyStage pb o data) []

/-- The context and outline for the C6 counterexample: every stage empty
except a `data_dependent` entry naming attribute `w` of the data. -/
def pbC6 : PBContext :=
  { idea_parameters := Option.none
    author := fun _ => Option.none
    parentConditional := Option.none }

def outlineC6 : Outline :=
  { name := "model"
    selected := .no
    default := []
    required := Option.none
    runtime := Option.none
    hasConditional := false
    data_dependent := [("weights", "w")] }

def dataC6 : DataObject := { attrs := fun a => if a = "w" then some "0.5" else Option.none }

/-- C6 counterexample: the outline names the data-dependent parameter
`weights`, the supplied data object carries the matching attribute `w`,
yet `ParameterBuilder.apply` produces a bunch without `weights` (indeed
an empty bunch): the data-dependent stage is never invoked, refuting the
claim that data-dependent values named in the outline are added from the
data object's attributes. -/
theorem parameter_builder_ignores_data :
    outlineC6.data_dependent = [("weights", "w")]
    ∧ dataC6.attrs "w" = some "0.5"
    ∧ applyPB pbC6 outlineC6 (some dataC6) = []
    ∧ dget (applyPB pbC6 outlineC6 (some dataC6)) "weights" = Option.none := by
  refine ⟨rfl, rfl, rfl, rfl⟩

theorem dget_dupdate_nil_mem {r : ParamDict} {k : String} {v : String}
    (h : dget (dupdate [] r) k = some v) :
    ∀ b : ParamDict, dget (dupdate b r) k = some v := by
  intro b
  rw [dget_dupdate r b k, h]

/-- C6 (amended): `apply` invokes the builder stages in the fixed order
idea, selected, required, runtime, conditional; required entries
overwrite any earlier value for the same key (when no later runtime or
conditional stage runs); and the supplied data object is never
consulted — the `data_dependent` stage is absent from `parameter_types`,
so no data-dependent value is added to the bunch. -/
theorem parameter_builder_stage_order (pb : PBContext) (o : Outline)
    (d d' : Option DataObject) :
    applyPB pb o d = applyPB pb o d'
    ∧ applyPB pb o d
        = buildConditional pb o (buildRuntime pb o
            (buildRequired o (buildSelected o (buildIdea pb))))
    ∧ (∀ r k v, o.required = some r → o.runtime = Option.none →
        o.hasConditional = false →
        dget (dupdate [] r) k = some v →
        dget (applyPB pb o d) k = some v) := by
  refine ⟨rfl, rfl, ?_⟩
  intro r k v hreq hrt hcond hget
  have happly : applyPB pb o d
      = buildRequired o (buildSelected o (buildIdea pb)) := by
    show buildConditional pb o (buildRuntime pb o
        (buildRequired o (buildSelected o (buildIdea pb)))) = _
    rw [buildRuntime, hrt, buildConditional, hcond]
    simp
  rw [happly, buildRequired, hreq]
  exact dget_dupdate_nil_mem hget _

/-- Outline for the C6 witness: `lr` is supplied by the idea stage with
value `"0.1"` and overwritten by the required stage with `"0.3"`. -/
def outlineC6w : Outline :=
  { name := "model"
    selected := .no
    default := []
    required := some [("lr", "0.3")]
    runtime := Option.none
    hasConditional := false
    data_dependent := [] }

def pbC6w : PBContext :=
  { idea_parameters := some [("lr", "0.1"), ("depth", "6")]
    author := fun _ => Option.none
    parentConditional := Option.none }

theorem parameter_builder_stage_order_witness :
    dget (applyPB pbC6w outlineC6w Option.none) "lr" = some "0.3"
    ∧ applyPB pbC6w outlineC6w Option.none
        = applyPB pbC6w outlineC6w (some dataC6) := by
  constructor
  · exact (parameter_builder_stage_order pbC6w outlineC6w Option.none
      Option.none).2.2 [("lr", "0.3")] "lr" "0.3" rfl rfl rfl rfl
  · exact (parameter_builder_stage_order pbC6w outlineC6w Option.none
      (some dataC6)).1

/-! ## C7: `Data.summarize` (src/ml_funnel/data.py)

For every column the loop appends a row holding the column name, dtype
and count; for numeric columns (`dtype.kind in 'bifcu'`, booleans having
been cast to int first) it also fills min, q1 (the 0.25 quantile),
median, q3 (the 0.75 quantile), max, mad (mean absolute deviation),
mean, standard deviation (sample, `ddof = 1`), mode (`mode()[0]`, the
smallest among the most frequent values — this raises `IndexError` on an
empty column) and sum.  Finally the table is sorted by the `variable`
column.  Quantiles use linear interpolation; the standard deviation, an
irrational square root, is the only statistic represented over `Real`
rather than `Rat`. -/

/-- `Series.min()` of a nonempty column. -/
def listMin : List Rat → Rat
  | [] => 0
  | x :: xs => xs.foldl min x

/-- `Series.max()` of a nonempty column. -/
def listMax : List Rat → Rat
  | [] => 0
  | x :: xs => xs.foldl max x

/-- `Series.quantile(q)` with pandas' linear interpolation over the
sorted values. -/
def quantileLinear (l : List Rat) (q : Rat) : Rat :=
  let s := l.mergeSort (fun a b => decide (a ≤ b))
  let pos : Rat := q * ((l.length : Rat) - 1)
  let i : Nat := pos.floor.toNat
  let lower := s.getD i 0
  let upper := s.getD (i + 1) lower
  lower + (pos - Rat.floor pos) * (upper - lower)

/-- `Series.mad()`: mean absolute deviation from the mean. -/
def madVal (l : List Rat) : Rat :=
  listMean (l.map (fun x => |x - listMean l|))

/-- The largest multiplicity of a value in the column. -/
def maxCount (l : List Rat) : Nat :=
  (l.map (fun x => l.count x)).foldl max 0

/-- `Series.mode()[0]`: the smallest among the most frequent values
(pandas returns the modes sorted ascending). -/
def modeVal (l : List Rat) : Rat :=
  listMin (l.filter (fun x => l.count x == maxCount l))

/-- The `ddof = 1` sample variance (`std()` squared). -/
def sampleVar (l : List Rat) : Rat :=
  sxx l / ((l.length : Rat) - 1)

/-- `Series.std()`: the sample standard deviation; pandas yields `NaN`
(modelled `Option.none`) for fewer than two values. -/
noncomputable def stanDevOpt (l : List Rat) : Option Real :=
  if 2 ≤ l.length then some (Real.sqrt ((sampleVar l : Rat) : Real))
  else Option.none

/-- One row of the synthesized summary table; the absent statistics of a
non-numeric column are pandas `NaN`, modelled `Option.none`. -/
structure SummaryRow where
  varName : String
  data_type : DType
  count : Nat
  min_ : Option Rat
  q1 : Option Rat
  median_ : Option Rat
  q3 : Option Rat
  max_ : Option Rat
  mad : Option Rat
  mean_ : Option Rat
  stan_dev : Option Real
  mode_ : Option Rat
  sum_ : Option Rat

/-- The summary row built for one column by the loop body of
`Data.summarize` (when it does not raise). -/
noncomputable def mkRowOk (c : Column) : SummaryRow :=
  if c.dtype.isNumeric then
    { varName := c.name
      data_type := c.dtype
      count := c.vals.length
      min_ := some (listMin c.vals)
      q1 := some (quantileLinear c.vals (1/4))
      median_ := some (quantileLinear c.vals (1/2))
      q3 := some (quantileLinear c.vals (3/4))
      max_ := some (listMax c.vals)
      mad := some (madVal c.vals)
      mean_ := some (listMean c.vals)
      stan_dev := stanDevOpt c.vals
      mode_ := some (modeVal c.vals)
      sum_ := some (listSum c.vals) }
  else
    { varName := c.name
      data_type := c.dtype
      count := c.vals.length
      min_ := Option.none
      q1 := Option.none
      median_ := Option.none
      q3 := Option.none
      max_ := Option.none
      mad := Option.none
      mean_ := Option.none
      stan_dev := Option.none
      mode_ := Option.none
      sum_ := Option.none }

/-- The row-building loop of `Data.summarize`: one row per column, in
frame order, raising `IndexError` at `mode()[0]` on an empty numeric
column (in which case the rows already built are discarded with the
raise). -/
noncomputable def summarizeRows : Frame → Except String (List SummaryRow)
  | [] => Except.ok []
  | c :: rest =>
    if c.dtype.isNumeric && c.vals.isEmpty then
      Except.error "IndexError"
    else
      match summarizeRows rest with
      | Except.error e => Except.error e
      | Except.ok rs => Except.ok (mkRowOk c :: rs)

/-- `Data.summarize`: builds the per-column rows, then
`sort_values('variable')`. -/
noncomputable def summarize (df : Frame) : Except String (List SummaryRow) :=
  (summarizeRows df).map
    (fun rows => rows.mergeSort (fun a b => decide (a.varName ≤ b.varName)))

theorem mkRowOk_varName (c : Column) : (mkRowOk c).varName = c.name := by
  by_cases h : c.dtype.isNumeric <;> simp [mkRowOk, h]

theorem summarizeRows_ok (df : Frame)
    (hne : ∀ c ∈ df, c.dtype.isNumeric = true → c.vals.length ≠ 0) :
    summarizeRows df = Except.ok (df.map mkRowOk) := by
  induction df with
  | nil => rfl
  | cons c rest ih =>
    have hc : ¬ (c.dtype.isNumeric && c.vals.isEmpty) = true := by
      intro hcontra
      have hsplit : c.dtype.isNumeric = true ∧ c.vals.isEmpty = true := by
        simpa using hcontra
      exact hne c (List.mem_cons_self _ _) hsplit.1
        (List.isEmpty_iff_length_eq_zero.1 hsplit.2)
    have hrest := ih (fun c' hc' h => hne c' (List.mem_cons_of_mem _ hc') h)
    simp [summarizeRows, hc, hrest]

/-- C7: for every frame with distinct column names whose numeric and
boolean columns are nonempty, `Data.summarize` produces a table with
exactly one row per column, sorted by column name, and the row of each
numeric or boolean column holds that column's min, q1 (0.25 quantile),
median, q3 (0.75 quantile), max, mad, mean, standard deviation, mode and
sum. -/
theorem summarize_numeric_rows (df : Frame)
    (hnodup : (frameNames df).Nodup)
    (hne : ∀ c ∈ df, c.dtype.isNumeric = true → c.vals.length ≠ 0) :
    ∃ rows, summarize df = Except.ok rows
      ∧ List.Sorted (fun a b : SummaryRow => a.varName ≤ b.varName) rows
      ∧ (∀ c ∈ df, ∃ r ∈ rows, r.varName = c.name ∧ r.data_type = c.dtype
          ∧ r.count = c.vals.length
          ∧ (c.dtype.isNumeric = true →
              r.min_ = some (listMin c.vals)
              ∧ r.q1 = some (quantileLinear c.vals (1/4))
              ∧ r.median_ = some (quantileLinear c.vals (1/2))
              ∧ r.q3 = some (quantileLinear c.vals (3/4))
              ∧ r.max_ = some (listMax c.vals)
              ∧ r.mad = some (madVal c.vals)
              ∧ r.mean_ = some (listMean c.vals)
              ∧ r.stan_dev = stanDevOpt c.vals
              ∧ r.mode_ = some (modeVal c.vals)
              ∧ r.sum_ = some (listSum c.vals)))
      ∧ (∀ c ∈ df, rows.countP (fun r => r.varName == c.name) = 1) := by
  have hrows := summarizeRows_ok df hne
  refine ⟨(df.map mkRowOk).mergeSort (fun a b => decide (a.varName ≤ b.varName)),
    ?_, ?_, ?_, ?_⟩
  · rw [summarize, hrows]
    rfl
  · have hsorted := @List.sorted_mergeSort SummaryRow
      (fun a b : SummaryRow => decide (a.varName ≤ b.varName))
      (fun a b c hab hbc => by
        simp only [decide_eq_true_eq] at hab hbc ⊢
        exact le_trans hab hbc)
      (fun a b => by
        simp only [Bool.or_eq_true, decide_eq_true_eq]
        exact le_total a.varName b.varName)
      (df.map mkRowOk)
    exact hsorted.imp (fun h => by simpa using h)
  · intro c hc
    have hperm := List.mergeSort_perm (df.map mkRowOk)
      (fun a b => decide (a.varName ≤ b.varName))
    refine ⟨mkRowOk c, hperm.mem_iff.2 (List.mem_map.2 ⟨c, hc, rfl⟩), ?_⟩
    by_cases hnum : c.dtype.isNumeric = true
    · refine ⟨mkRowOk_varName c, ?_, ?_, ?_⟩ <;> simp [mkRowOk, hnum]
    · refine ⟨mkRowOk_varName c, ?_, ?_, ?_⟩
      · simp [mkRowOk, hnum]
      · simp [mkRowOk, hnum]
      · intro h; exact absurd h hnum
  · intro c hc
    have hperm := List.mergeSort_perm (df.map mkRowOk)
      (fun a b => decide (a.varName ≤ b.varName))
    rw [hperm.countP_eq]
    have hmap : (df.map mkRowOk).countP (fun r => r.varName == c.name)
        = df.countP (fun x => x.name == c.name) := by
      rw [List.countP_map]
      apply List.countP_congr
      intro x _
      simp [Function.comp, mkRowOk_varName]
    rw [hmap]
    have hcount : df.countP (fun x => x.name == c.name)
        = (frameNames df).count c.name := by
      rw [List.count, frameNames, List.countP_map]
      apply List.countP_congr
      intro x _
      simp [Function.comp]
    rw [hcount]
    exact List.count_eq_one_of_mem hnodup
      (List.mem_map.2 ⟨c, hc, rfl⟩)

/-- Concrete frame for the C7 witness: one numeric and one object
column. -/
def dfC7 : Frame :=
  [⟨"b_score", .int64, [1, 2, 2]⟩, ⟨"a_tag", .obj, [0]⟩]

theorem summarize_numeric_rows_witness :
    ∃ rows, summarize dfC7 = Except.ok rows
      ∧ List.Sorted (fun a b : SummaryRow => a.varName ≤ b.varName) rows := by
  obtain ⟨rows, h1, h2, _, _⟩ := summarize_numeric_rows dfC7
    (by decide) (by decide)
  exact ⟨rows, h1, h2⟩

/-! ## C8: `Data._set_defaults` (src/ml_funnel/data.py)

```python
def _set_defaults(self):
    if self.settings['general']['verbose']:
        self.verbose = self.settings['general']['verbose']
    else:
        self.verbose = True
    if self.settings['general']['seed']:
        self.seed = self.seed = self.settings['general']['seed']
    return self
```

With `settings = None`, `None['general']` raises `TypeError`; with a
mapping lacking `'general'`, `'verbose'` or `'seed'`, the subscript
raises `KeyError`; only when the keys are present does control proceed,
and then a falsy stored value is replaced by the hard-coded default
(`verbose = True`; `seed` keeps the dataclass default 999). -/

/-- A settings mapping: section name to key to value. -/
abbrev SettingsDict := List (String × List (String × PyVal))

/-- `Data._set_defaults`, returning `(verbose, seed)` on success.
`seed0` is the dataclass field default (999). -/
def set_defaults (settings : Option SettingsDict) (seed0 : PyVal) :
    Except PyErr (PyVal × PyVal) :=
  match settings with
  | Option.none => Except.error .typeError
  | some s =>
    match dget s "general" with
    | Option.none => Except.error (.keyError "general")
    | some gen =>
      match dget gen "verbose" with
      | Option.none => Except.error (.keyError "verbose")
      | some v =>
        let verbose := if v.truthy then v else PyVal.bool true
        match dget gen "seed" with
        | Option.none => Except.error (.keyError "seed")
        | some sd =>
          Except.ok (verbose, if sd.truthy then sd else seed0)

/-- C8: contrary to the claim of a silent fallback, `Data`
initialization with an absent settings object raises `TypeError`
(`None` is not subscriptable), and a settings mapping lacking the
`general` section or its `verbose` key raises `KeyError`; moreover a
present-but-falsy `verbose`/`seed` is *not* used but replaced by the
hard-coded defaults. -/
theorem set_defaults_raises_on_missing :
    set_defaults Option.none (.int 999) = Except.error PyErr.typeError
    ∧ set_defaults (some []) (.int 999) = Except.error (.keyError "general")
    ∧ set_defaults (some [("general", [])]) (.int 999)
        = Except.error (.keyError "verbose")
    ∧ set_defaults (some [("general", [("verbose", .bool false)])]) (.int 999)
        = Except.error (.keyError "seed")
    ∧ set_defaults
        (some [("general", [("verbose", .bool false), ("seed", .int 0)])])
        (.int 999)
        = Except.ok (.bool true, .int 999)
    ∧ set_defaults
        (some [("general", [("verbose", .bool true), ("seed", .int 4)])])
        (.int 999)
        = Except.ok (.bool true, .int 4) := by
  refine ⟨rfl, rfl, rfl, rfl, rfl, rfl⟩

/-! ## C9: the `parallelize` flag (src/simplify/core/resources.py)

`settings['general']['parallelize']` is declared in the default settings
mapping and read by nothing: the settings consumers in the sources are
`Data._set_defaults` (general section) and the quick-start branch of
`Data.__post_init__` (files section).  Noninterference: two runs whose
settings differ only in the value stored under
`('general', 'parallelize')` behave identically. -/

/-- The default settings mapping declared in
src/simplify/core/resources.py (the `parallelize` flag is declared here
and nowhere consumed). -/
def resourcesSettings : SettingsDict :=
  [("general",
     [("verbose", .bool false), ("parallelize", .bool true),
      ("conserve_memery", .bool false)]),
   ("files",
     [("source_format", .str "csv"), ("interim_format", .str "csv"),
      ("final_format", .str "csv"), ("file_encoding", .str "windows-1252")])]

/-- Store `v` under `('general', 'parallelize')`, creating the section
when absent. -/
def setParallelize (s : SettingsDict) (v : PyVal) : SettingsDict :=
  match dget s "general" with
  | some gen => dset s "general" (dset gen "parallelize" v)
  | Option.none => dset s "general" [("parallelize", v)]

/-- The settings reads of the quick-start branch of
`Data.__post_init__`: `files.data_in`, `files.test_data`,
`files.test_chunk` and `files.encoding`, in evaluation order, each
raising `KeyError` when absent. -/
def quickStartConfig (s : SettingsDict) :
    Except PyErr (PyVal × PyVal × PyVal × PyVal) :=
  match dget s "files" with
  | Option.none => Except.error (.keyError "files")
  | some files =>
    match dget files "data_in" with
    | Option.none => Except.error (.keyError "data_in")
    | some d =>
      match dget files "test_data" with
      | Option.none => Except.error (.keyError "test_data")
      | some td =>
        match dget files "test_chunk" with
        | Option.none => Except.error (.keyError "test_chunk")
        | some tc =>
          match dget files "encoding" with
          | Option.none => Except.error (.keyError "encoding")
          | some enc => Except.ok (d, td, tc, enc)

theorem dget_setParallelize (s : SettingsDict) (v : PyVal) (sec : String)
    (hsec : sec ≠ "general") :
    dget (setParallelize s v) sec = dget s sec := by
  unfold setParallelize
  cases hg : dget s "general" with
  | some gen => rw [dget_dset]; simp [hsec]
  | none => rw [dget_dset]; simp [hsec]

theorem dget_setParallelize_general (s : SettingsDict) (v : PyVal) :
    dget (setParallelize s v) "general"
      = some (match dget s "general" with
              | some gen => dset gen "parallelize" v
              | Option.none => [("parallelize", v)]) := by
  unfold setParallelize
  cases hg : dget s "general" with
  | some gen => rw [dget_dset]; simp
  | none => rw [dget_dset]; simp

theorem set_defaults_eq_of (s1 s2 : SettingsDict) (seed0 : PyVal)
    (h : (dget s1 "general").map
          (fun gen => (dget gen "verbose", dget gen "seed"))
        = (dget s2 "general").map
          (fun gen => (dget gen "verbose", dget gen "seed"))) :
    set_defaults (some s1) seed0 = set_defaults (some s2) seed0 := by
  unfold set_defaults
  cases h1 : dget s1 "general" with
  | none =>
    cases h2 : dget s2 "general" with
    | none => simp [h1, h2]
    | some g2 => rw [h1, h2] at h; simp at h
  | some g1 =>
    cases h2 : dget s2 "general" with
    | none => rw [h1, h2] at h; simp at h
    | some g2 =>
      rw [h1, h2] at h
      simp only [Option.map_some'] at h
      have h' := Option.some.inj h
      have hv : dget g1 "verbose" = dget g2 "verbose" := congrArg Prod.fst h'
      have hs : dget g1 "seed" = dget g2 "seed" := congrArg Prod.snd h'
      simp only [h1, h2]
      rw [hv, hs]

/-- C9: the `parallelize` flag never affects behaviour.  Two runs whose
settings differ only in the value stored under
`('general', 'parallelize')` return identical results for every
settings-consuming operation of the sources (`Data._set_defaults` and
the quick-start configuration reads of `Data.__post_init__`); the flag
is declared in the default settings of resources.py and read by
nothing. -/
theorem parallelize_noninterference (s : SettingsDict) (v v' : PyVal)
    (seed0 : PyVal) :
    set_defaults (some (setParallelize s v)) seed0
      = set_defaults (some (setParallelize s v')) seed0
    ∧ quickStartConfig (setParallelize s v) = quickStartConfig s
    ∧ dget resourcesSettings "general" ≠ Option.none := by
  refine ⟨?_, ?_, by decide⟩
  · apply set_defaults_eq_of
    rw [dget_setParallelize_general, dget_setParallelize_general]
    cases hg : dget s "general" with
    | some gen =>
      simp only [Option.map_some']
      rw [dget_dset, dget_dset, dget_dset, dget_dset]
      simp
    | none =>
      simp [dget]
  · unfold quickStartConfig
    rw [dget_setParallelize s v "files" (by decide)]

/-! ## C10: `Data.load` (src/ml_funnel/data.py)

```python
if file_format == 'csv':
    df = pd.read_csv(...)
elif file_format == 'h5':
    df = pd.read_hdf(...)
elif file_format == 'feather':
    df = pd.read_feather(...)
if not return_df:
    self.df = df
    return self
else:
    return df
```

File reading is external I/O: the three readers' results are parameters.
For any other format, no branch assigns the local `df`, and the final
branch's use of `df` raises `UnboundLocalError`, leaving `self.df`
untouched.  The result is the pair (the `self.df` after the call, the
Python outcome: the returned frame, `Option.none` for `return self`, or
the raised error). -/

/-- `Data.load`, with the external readers' results supplied as
parameters `csvResult`, `h5Result` and `featherResult`. -/
def dataLoad {α : Type} (csvResult h5Result featherResult : α)
    (selfDf : Option α) (file_format : String) (return_df : Bool) :
    Option α × Except PyErr (Option α) :=
  let df : Option α :=
    if file_format = "csv" then some csvResult
    else if file_format = "h5" then some h5Result
    else if file_format = "feather" then some featherResult
    else Option.none
  match df with
  | Option.none => (selfDf, Except.error (.unboundLocalError "df"))
  | some d =>
    if return_df then (selfDf, Except.ok (some d))
    else (some d, Except.ok Option.none)

/-- C10: for every `file_format` outside `'csv'`, `'h5'` and
`'feather'`, `Data.load` reaches its final branch with the local `df`
never assigned and fails with an unhandled `UnboundLocalError` instead
of returning a value or raising a described error, and `self.df` is
unchanged on this failure path. -/
theorem data_load_unknown_format {α : Type}
    (csvResult h5Result featherResult : α) (selfDf : Option α)
    (file_format : String) (return_df : Bool)
    (h : file_format ∉ ["csv", "h5", "feather"]) :
    dataLoad csvResult h5Result featherResult selfDf file_format return_df
      = (selfDf, Except.error (.unboundLocalError "df")) := by
  have h1 : file_format ≠ "csv" := fun hc => h (by simp [hc])
  have h2 : file_format ≠ "h5" := fun hc => h (by simp [hc])
  have h3 : file_format ≠ "feather" := fun hc => h (by simp [hc])
  simp [dataLoad, h1, h2, h3]

theorem data_load_unknown_format_witness :
    dataLoad (α := Nat) 1 2 3 (some 7) "json" false
      = (some 7, Except.error (.unboundLocalError "df")) :=
  data_load_unknown_format 1 2 3 (some 7) "json" false (by decide)

end MlFunnel
